import Mathlib

/-!
Shallow embedding of the trading-signal bot in `src/run.py`.

The Python source mixes pure logic (signal parsing, risk arithmetic) with
I/O against a brokerage gateway and a chat transport.  We embed the pure
logic directly, and model the gateway as an explicit record of the values
it would return (balance, bid/ask quotes, per-call order-placement
outcomes).  Python `float` arithmetic is modelled with `ℚ`; Python
exceptions raised inside the embedded code are modelled with
`Except`/`Option` results.  String helpers from Python (`splitlines`,
`split`, `rstrip`, `lower`, `upper`, `in`) are re-implemented by
structural recursion over `List Char` so that every definition evaluates
on concrete inputs.
-/

/-- Python exceptions that the embedded fragments of `run.py` can raise. -/
inductive PyError where
  | typeError
  | valueError
  | zeroDivisionError
deriving DecidableEq, Repr

/-- The value stored in `trade['Entry']`: Python duck-types it as either the
verbatim string token (for market orders, before live-price substitution)
or a float. -/
inductive EntryVal where
  | str (s : String)
  | num (q : ℚ)
deriving DecidableEq, Repr

/-- The `trade` dictionary built by `ParseSignal` (src/run.py lines 61-96).
`PositionSize` is absent (`none`) until `GetTradeInformation` adds it. -/
structure Trade where
  OrderType : String
  Symbol : String
  Entry : EntryVal
  StopLoss : ℚ
  TP : List ℚ
  RiskFactor : ℚ
  PositionSize : Option ℚ
deriving DecidableEq, Repr

/-- The `SYMBOLS` allow-list, src/run.py line 42. -/
def SYMBOLS : List String :=
  ["AUDCAD", "AUDCHF", "AUDJPY", "AUDNZD", "AUDUSD", "CADCHF", "CADJPY",
   "CHFJPY", "EURAUD", "EURCAD", "EURCHF", "EURGBP", "EURJPY", "EURNZD",
   "EURUSD", "GBPAUD", "GBPCAD", "GBPCHF", "GBPJPY", "GBPNZD", "GBPUSD",
   "NOW", "NZDCAD", "NZDCHF", "NZDJPY", "NZDUSD", "USDCAD", "USDCHF",
   "USDJPY", "XAGUSD", "XAUUSD"]

/-- Split a character list at every occurrence of `sep` (keeping empty
pieces), accumulating the current piece in reverse. -/
def splitCharAux (sep : Char) : List Char → List Char → List (List Char)
  | [], cur => [cur.reverse]
  | c :: rest, cur =>
      if c = sep then cur.reverse :: splitCharAux sep rest []
      else splitCharAux sep rest (c :: cur)

/-- Python `str.splitlines()` restricted to `\n` separators: a trailing
newline does not produce a trailing empty line, and the empty string has
no lines. -/
def pySplitlines (s : String) : List String :=
  match s.data with
  | [] => []
  | cs =>
      let parts := (splitCharAux '\n' cs []).map (fun l => String.mk l)
      if cs.getLast? = some '\n' then parts.dropLast else parts

/-- Worker for `pySplit`: split on whitespace runs, discarding empties. -/
def wordsAux : List Char → List Char → List String
  | [], cur => if cur.isEmpty then [] else [String.mk cur.reverse]
  | c :: rest, cur =>
      if c.isWhitespace then
        if cur.isEmpty then wordsAux rest []
        else String.mk cur.reverse :: wordsAux rest []
      else wordsAux rest (c :: cur)

/-- Python `str.split()` with no argument: split on whitespace runs,
discarding empty fields. -/
def pySplit (s : String) : List String := wordsAux s.data []

/-- Python `str.rstrip()`: drop trailing whitespace. -/
def pyRstrip (s : String) : String :=
  String.mk (s.data.reverse.dropWhile (·.isWhitespace)).reverse

/-- Python `str.lower()` (ASCII, which covers every signal phrase). -/
def pyLower (s : String) : String := String.mk (s.data.map Char.toLower)

/-- Python `str.upper()` (ASCII). -/
def pyUpper (s : String) : String := String.mk (s.data.map Char.toUpper)

/-- Python `tokens[-1]` on the result of `split()`: the last whitespace-delimited
token, or an IndexError (`none`) when the line has no tokens. -/
def lastToken (l : String) : Option String :=
  (pySplit l).getLast?

/-- Does `pat` occur as a contiguous run inside `s`? -/
def containsChars (pat : List Char) : List Char → Bool
  | [] => pat.isEmpty
  | c :: rest => pat.isPrefixOf (c :: rest) || containsChars pat rest

/-- Case-insensitive substring test: Python `pat.lower() in s.lower()`. -/
def containsSub (s pat : String) : Bool :=
  containsChars (pyLower pat).data (pyLower s).data

/-- The value of an unsigned run of decimal digits. -/
def digitsToNat (cs : List Char) : ℕ :=
  cs.foldl (fun a c => 10 * a + (c.toNat - Char.toNat '0')) 0

/-- Unsigned decimal literal: `"123"`, `"123.456"`, `".456"`, `"123."`. -/
def pyFloatCore (cs : List Char) : Option ℚ :=
  let intPart := cs.takeWhile (· ≠ '.')
  match cs.dropWhile (· ≠ '.') with
  | [] =>
      if cs ≠ [] && cs.all (·.isDigit) then some (digitsToNat cs) else none
  | '.' :: frac =>
      if (intPart ≠ [] || frac ≠ []) && intPart.all (·.isDigit) && frac.all (·.isDigit) then
        some ((digitsToNat intPart : ℚ) + (digitsToNat frac : ℚ) / (10 : ℚ) ^ frac.length)
      else none
  | _ => none

/-- Python `float(token)` on the decimal-literal forms that signal tokens
take: optional sign, digits, at most one decimal point.  (Exponent,
`inf`/`nan` and underscore forms of `float()` are not modelled; no claim
involves them.)  `none` models the `ValueError` raised on a non-numeric
token. -/
def pyFloat (s : String) : Option ℚ :=
  match s.data with
  | '+' :: rest => pyFloatCore rest
  | '-' :: rest => (pyFloatCore rest).map Neg.neg
  | cs => pyFloatCore cs

/-- Python's built-in `round()` to an integer: round half to even. -/
def pyRound (x : ℚ) : ℤ :=
  let f := ⌊x⌋
  let r := x - f
  if r < 1 / 2 then f
  else if 1 / 2 < r then f + 1
  else if f % 2 = 0 then f else f + 1

/-- The order-type classification chain of `ParseSignal`
(src/run.py lines 63-76): case-insensitive substring matches tried in a
fixed order, `none` for the final `else: return {}` branch. -/
def classifyLine0 (l0 : String) : Option String :=
  if containsSub l0 "Buy Limit" then some "Buy Limit"
  else if containsSub l0 "Sell Limit" then some "Sell Limit"
  else if containsSub l0 "Buy Stop" then some "Buy Stop"
  else if containsSub l0 "Sell Stop" then some "Sell Stop"
  else if containsSub l0 "Buy" then some "Buy"
  else if containsSub l0 "Sell" then some "Sell"
  else none

/-- The lines of a signal as `ParseSignal` sees them: `splitlines()` then
`rstrip()` per line (src/run.py lines 58-59). -/
def signalLines (signal : String) : List String :=
  (pySplitlines signal).map pyRstrip

/-- The last token of line 1, where `ParseSignal` reads the entry
(src/run.py lines 83-86). -/
def entryTokenOf (signal : String) : Option String :=
  ((signalLines signal)[1]?).bind lastToken

/-- The function `ParseSignal` (src/run.py lines 48-96), parameterised by the ambient
`RISK_FACTOR` configuration value.  `none` covers both the explicit
`return {}` rejections and the exceptions (IndexError on a missing line,
ValueError on a non-numeric token) that escape to the caller's
`try`/`except`. -/
def ParseSignal (rf : ℚ) (signal : String) : Option Trade :=
  ((signalLines signal)[0]?).bind fun l0 =>
  (classifyLine0 l0).bind fun ot =>
  (lastToken l0).bind fun symTok =>
  if pyUpper symTok ∈ SYMBOLS then
    ((signalLines signal)[1]?).bind fun l1 =>
    (lastToken l1).bind fun etok =>
    (if ot = "Buy" ∨ ot = "Sell" then some (EntryVal.str etok)
     else (pyFloat etok).map EntryVal.num).bind fun entry =>
    ((signalLines signal)[2]?).bind fun l2 =>
    ((lastToken l2).bind pyFloat).bind fun sl =>
    ((signalLines signal)[3]?).bind fun l3 =>
    ((lastToken l3).bind pyFloat).bind fun tp1 =>
    match (signalLines signal)[4]? with
    | none => some ⟨ot, pyUpper symTok, entry, sl, [tp1], rf, none⟩
    | some l4 =>
        ((lastToken l4).bind pyFloat).map fun tp2 =>
          ⟨ot, pyUpper symTok, entry, sl, [tp1, tp2], rf, none⟩
  else none

/-- The risk figures computed by `GetTradeInformation`
(src/run.py lines 98-113). -/
structure RiskReport where
  stopLossPips : ℕ
  positionSize : ℚ
  takeProfitPips : List ℕ
  multiplier : ℚ
deriving DecidableEq, Repr

/-- The condition `str(trade['Entry']).index('.') >= 2` of
src/run.py line 103 for a float entry: in Python's plain-decimal `str()`
of a finite float the decimal point sits at index ≥ 2 exactly when the
float has at least two integer digits (value ≥ 10) or is negative (the
minus sign occupies index 0).  (Floats that `str()` in exponent notation
have no `'.'` at all; signal prices are plain decimals.) -/
def dotIndexGe2 (q : ℚ) : Bool := q < 0 || 10 ≤ q

/-- The pip-multiplier resolution of `GetTradeInformation`
(src/run.py lines 99-106).  For a string entry (a market order whose
token was not substituted), `str()` is the identity and `.index('.')`
raises ValueError when the string has no dot. -/
def multiplierOf (t : Trade) : Except PyError ℚ :=
  if t.Symbol = "XAUUSD" then .ok (1 / 10)
  else if t.Symbol = "XAGUSD" then .ok (1 / 1000)
  else
    match t.Entry with
    | .num q => .ok (if dotIndexGe2 q then 1 / 100 else 1 / 10000)
    | .str s =>
      match s.data.findIdx? (· = '.') with
      | none => .error .valueError
      | some i => .ok (if 2 ≤ i then 1 / 100 else 1 / 10000)

/-- The expression `math.floor(((balance * riskFactor) / stopLossPips) / 10 * 100) / 100`
of src/run.py line 109. -/
def positionSizeOf (balance rf : ℚ) (stopLossPips : ℕ) : ℚ :=
  ((⌊((balance * rf) / (stopLossPips : ℚ)) / 10 * 100⌋ : ℤ) : ℚ) / 100

/-- The function `GetTradeInformation` (src/run.py lines 98-113), the pure risk
computation (the table formatting and chat reply are I/O).  A string
entry raises: ValueError at the `str(...).index('.')` inspection when the
string has no dot, TypeError at the `float - str` subtraction of line 108
otherwise.  `stopLossPips == 0` raises ZeroDivisionError at the division
of line 109 — the source has no guard. -/
def GetTradeInformation (t : Trade) (balance : ℚ) : Except PyError RiskReport :=
  match multiplierOf t with
  | .error e => .error e
  | .ok m =>
    match t.Entry with
    | .str _ => .error .typeError
    | .num e =>
      let stopLossPips : ℕ := (pyRound ((t.StopLoss - e) / m)).natAbs
      if stopLossPips = 0 then .error .zeroDivisionError
      else
        .ok { stopLossPips := stopLossPips,
              positionSize := positionSizeOf balance t.RiskFactor stopLossPips,
              takeProfitPips := t.TP.map (fun tp => (pyRound ((tp - e) / m)).natAbs),
              multiplier := m }

/-- The brokerage gateway (MetaApi), modelled as the values its calls
return: the account balance, bid/ask quotes per symbol, and the outcome
of the n-th order-creation call of a `ConnectMetaTrader` run (`.error`
models an exception raised by the SDK call). -/
structure Gateway where
  balance : ℚ
  bid : String → ℚ
  ask : String → ℚ
  place : ℕ → Except String Unit

/-- The live-price substitution of src/run.py lines 179-186: when the
stored entry is the exact string `'NOW'`, one `get_symbol_price` call is
made and the entry is overwritten in place with the bid (Buy) or ask
(Sell) price.  Returns the updated trade and the number of price
fetches. -/
def substituteEntry (gw : Gateway) (t : Trade) : Trade × ℕ :=
  if t.Entry = EntryVal.str "NOW" then
    if t.OrderType = "Buy" then ({ t with Entry := .num (gw.bid t.Symbol) }, 1)
    else if t.OrderType = "Sell" then ({ t with Entry := .num (gw.ask t.Symbol) }, 1)
    else (t, 1)
  else (t, 0)

/-- One order-creation call (src/run.py lines 192-209): market orders pass
no entry price, limit/stop orders pass `trade['Entry']`. -/
structure TradeOrder where
  otype : String
  symbol : String
  size : ℚ
  entry : Option ℚ
  sl : ℚ
  tp : ℚ
deriving DecidableEq, Repr

/-- Read a numeric entry out of the duck-typed slot. -/
def entryQ : EntryVal → Option ℚ
  | .str _ => none
  | .num q => some q

/-- The order issued for one take-profit leg: size
`trade['PositionSize'] / len(trade['TP'])` (src/run.py lines 192-209). -/
def mkLegOrder (t : Trade) (tp : ℚ) : TradeOrder :=
  { otype := t.OrderType, symbol := t.Symbol,
    size := t.PositionSize.getD 0 / (t.TP.length : ℚ),
    entry := if t.OrderType = "Buy" ∨ t.OrderType = "Sell" then none else entryQ t.Entry,
    sl := t.StopLoss, tp := tp }

/-- The `for takeProfit in trade['TP']` loop inside the single
`try` of src/run.py lines 191-209: orders are attempted sequentially; an
exception from the n-th call propagates out of the loop to the `except`
of line 215, so later legs are not attempted.  Returns the attempted
orders and the caught error message, if any. -/
def placeLegs (place : ℕ → Except String Unit) (mk : ℚ → TradeOrder) :
    List ℚ → ℕ → List TradeOrder × Option String
  | [], _ => ([], none)
  | tp :: rest, i =>
    match place i with
    | .error e => ([mk tp], some e)
    | .ok _ =>
      let r := placeLegs place mk rest (i + 1)
      (mk tp :: r.1, r.2)

/-- The six order types with a creation branch in src/run.py
lines 192-209. -/
def orderTypes : List String :=
  ["Buy", "Buy Limit", "Buy Stop", "Sell", "Sell Limit", "Sell Stop"]

/-- The `if`/`elif` order-placement chain (src/run.py lines 192-209): one
leg loop for the matching order type, nothing placed otherwise. -/
def placeOrders (gw : Gateway) (t : Trade) : List TradeOrder × Option String :=
  if t.OrderType ∈ orderTypes then placeLegs gw.place (mkLegOrder t) t.TP 0
  else ([], none)

/-- The observable outcome of one `ConnectMetaTrader` run. -/
structure ConnectResult where
  trade : Trade
  report : Except PyError RiskReport
  priceFetches : ℕ
  ordersPlaced : List TradeOrder
  placeError : Option String

/-- The function `ConnectMetaTrader` (src/run.py lines 149-223) from the point where
the connection is up: substitute a `'NOW'` entry with the live quote
(mutating the trade dict in place), compute the risk report against the
live balance, and — when `enterTrade` — run the order-placement loop.  An
exception from `GetTradeInformation` is caught by the outer generic
`except` of line 219: no orders are placed, and the in-place mutations
done so far persist. -/
def ConnectMetaTrader (gw : Gateway) (t : Trade) (enterTrade : Bool) : ConnectResult :=
  let sub := substituteEntry gw t
  let t1 := sub.1
  let rep := GetTradeInformation t1 gw.balance
  let t2 : Trade :=
    { t1 with PositionSize :=
        match rep with
        | .ok r => some r.positionSize
        | .error _ => t1.PositionSize }
  let placing : List TradeOrder × Option String :=
    match rep with
    | .ok _ => if enterTrade then placeOrders gw t2 else ([], none)
    | .error _ => ([], none)
  { trade := t2, report := rep, priceFetches := sub.2,
    ordersPlaced := placing.1, placeError := placing.2 }

/-- State constant from `CALCULATE, TRADE, DECISION = range(3)`, src/run.py line 39. -/
def CALCULATE : Int := 0

/-- State constant from src/run.py line 39. -/
def TRADE : Int := 1

/-- State constant from src/run.py line 39. -/
def DECISION : Int := 2

/-- The value `ConversationHandler.END` of the telegram library, returned by the
handlers to end the conversation. -/
def END_STATE : Int := -1

/-- What one controller handler run produced: the new pending-intent slot
(`context.user_data['trade']`), the conversation-state constant it
returned, the `ConnectMetaTrader` run (if one happened), and whether the
formatted usage-error re-prompt was sent. -/
structure StepResult where
  slot : Option Trade
  state : Int
  connect : Option ConnectResult
  usageError : Bool

/-- The handler `PlaceTrade` (src/run.py lines 225-241): with an empty slot, parse the
message text — on failure (empty dict or exception) reply with the usage
error and stay in `TRADE`; on success store the intent.  Then run
`ConnectMetaTrader` with `enterTrade=True` on the stored intent, clear
the slot and end the conversation.  With a non-empty slot (the `/yes`
path from `DECISION`), the parse step is skipped entirely. -/
def PlaceTrade (gw : Gateway) (rf : ℚ) (slot : Option Trade) (text : String) : StepResult :=
  match slot with
  | none =>
    match ParseSignal rf text with
    | none => { slot := none, state := TRADE, connect := none, usageError := true }
    | some t =>
      { slot := none, state := END_STATE,
        connect := some (ConnectMetaTrader gw t true), usageError := false }
  | some t =>
    { slot := none, state := END_STATE,
      connect := some (ConnectMetaTrader gw t true), usageError := false }

/-- The handler `CalculateTrade` (src/run.py lines 243-259): like `PlaceTrade` but
with `enterTrade=False`, and it keeps the (in-place mutated) trade dict
in the slot and moves to `DECISION`. -/
def CalculateTrade (gw : Gateway) (rf : ℚ) (slot : Option Trade) (text : String) : StepResult :=
  match slot with
  | none =>
    match ParseSignal rf text with
    | none => { slot := none, state := CALCULATE, connect := none, usageError := true }
    | some t =>
      let r := ConnectMetaTrader gw t false
      { slot := some r.trade, state := DECISION, connect := some r, usageError := false }
  | some t =>
    let r := ConnectMetaTrader gw t false
    { slot := some r.trade, state := DECISION, connect := some r, usageError := false }


/-! ## Shared concrete instances for witnesses -/

/-- A benign gateway: fixed balance, all quotes 2, every order accepted. -/
def gwOk : Gateway := ⟨10000, fun _ => 2, fun _ => 2, fun _ => .ok ()⟩

/-- A pending-order intent with simple prices (gold, so the multiplier is
resolved from the symbol alone). -/
def tGold : Trade := ⟨"Buy Limit", "XAUUSD", .num 2, 1, [3], 1/50, none⟩

/-- The position-size formula as the spec words it: `floor( ((balance ×
riskFraction) / stopLossPips) / 10 × 100 ) / 100`. -/
def specPositionSize (balance riskFraction : ℚ) (stopLossPips : ℕ) : ℚ :=
  ((⌊balance * riskFraction / (stopLossPips : ℚ) / 10 * 100⌋ : ℤ) : ℚ) / 100

/-- A parsed market (Buy) intent whose entry token was the lowercase
string `"now"` — not the exact marker `'NOW'`. -/
def tNow : Trade := ⟨"Buy", "GBPUSD", .str "now", ((1:ℕ):ℚ), [((3:ℕ):ℚ)], 1/50, none⟩

/-- A parsed pending (Buy Limit) intent with integer-token prices. -/
def tLimit : Trade := ⟨"Buy Limit", "GBPUSD", .num ((2:ℕ):ℚ), ((1:ℕ):ℚ), [((3:ℕ):ℚ)], 1/50, none⟩

/-- An intent with two take-profit legs. -/
def tGold2 : Trade := ⟨"Buy Limit", "XAUUSD", .num 2, 1, [3, 4], 1/50, none⟩

/-- A gateway whose every order-creation call raises. -/
def gwFail : Gateway := ⟨10000, fun _ => 2, fun _ => 2, fun _ => .error "rejected"⟩

/-- The gateway live during the calculation run: balance 10000, quotes 2. -/
def gwA : Gateway := ⟨10000, fun _ => 2, fun _ => 2, fun _ => .ok ()⟩

/-- The gateway live during the yes-rerun: balance 5000, quotes moved
to 9. -/
def gwB : Gateway := ⟨5000, fun _ => 9, fun _ => 9, fun _ => .ok ()⟩

/-- The market intent parsed from `"BUY XAUUSD\nEntry NOW\nSL 1\nTP 3"`. -/
def tMkt : Trade := ⟨"Buy", "XAUUSD", .str "NOW", ((1:ℕ):ℚ), [((3:ℕ):ℚ)], 1/50, none⟩


/-! ## C4 -/

/-- C4: line-0 classification tries case-insensitive substring matches in
the fixed order "Buy Limit", "Sell Limit", "Buy Stop", "Sell Stop",
"Buy", "Sell"; a line 0 containing "Buy Limit" classifies as Buy Limit
and never as Buy; and an input whose line 0 matches none of the six
phrases is rejected by `ParseSignal`. -/
theorem classifyLine0_priority :
    (∀ l0 : String,
      (containsSub l0 "Buy Limit" = true →
          classifyLine0 l0 = some "Buy Limit" ∧ classifyLine0 l0 ≠ some "Buy") ∧
      (containsSub l0 "Buy Limit" = false → containsSub l0 "Sell Limit" = true →
          classifyLine0 l0 = some "Sell Limit") ∧
      (containsSub l0 "Buy Limit" = false → containsSub l0 "Sell Limit" = false →
          containsSub l0 "Buy Stop" = true → classifyLine0 l0 = some "Buy Stop") ∧
      (containsSub l0 "Buy Limit" = false → containsSub l0 "Sell Limit" = false →
          containsSub l0 "Buy Stop" = false → containsSub l0 "Sell Stop" = true →
          classifyLine0 l0 = some "Sell Stop") ∧
      (containsSub l0 "Buy Limit" = false → containsSub l0 "Sell Limit" = false →
          containsSub l0 "Buy Stop" = false → containsSub l0 "Sell Stop" = false →
          containsSub l0 "Buy" = true → classifyLine0 l0 = some "Buy") ∧
      (containsSub l0 "Buy Limit" = false → containsSub l0 "Sell Limit" = false →
          containsSub l0 "Buy Stop" = false → containsSub l0 "Sell Stop" = false →
          containsSub l0 "Buy" = false → containsSub l0 "Sell" = true →
          classifyLine0 l0 = some "Sell") ∧
      (containsSub l0 "Buy Limit" = false → containsSub l0 "Sell Limit" = false →
          containsSub l0 "Buy Stop" = false → containsSub l0 "Sell Stop" = false →
          containsSub l0 "Buy" = false → containsSub l0 "Sell" = false →
          classifyLine0 l0 = none)) ∧
    (∀ (rf : ℚ) (text : String),
      (∀ l0, (signalLines text)[0]? = some l0 → classifyLine0 l0 = none) →
      ParseSignal rf text = none) := by
  constructor
  · intro l0
    refine ⟨?_, ?_, ?_, ?_, ?_, ?_, ?_⟩
    · intro h1
      exact ⟨by simp [classifyLine0, h1], by simp [classifyLine0, h1]⟩
    · intro h1 h2; simp [classifyLine0, h1, h2]
    · intro h1 h2 h3; simp [classifyLine0, h1, h2, h3]
    · intro h1 h2 h3 h4; simp [classifyLine0, h1, h2, h3, h4]
    · intro h1 h2 h3 h4 h5; simp [classifyLine0, h1, h2, h3, h4, h5]
    · intro h1 h2 h3 h4 h5 h6; simp [classifyLine0, h1, h2, h3, h4, h5, h6]
    · intro h1 h2 h3 h4 h5 h6; simp [classifyLine0, h1, h2, h3, h4, h5, h6]
  · intro rf text h
    unfold ParseSignal
    cases h0 : (signalLines text)[0]? with
    | none => simp [h0]
    | some l0 => simp [h0, h l0 h0]

/-- Witness for C4 at the adversarial phrase itself. -/
theorem classifyLine0_priority_witness :
    classifyLine0 "Buy Limit GBPUSD" = some "Buy Limit" ∧
    classifyLine0 "Buy Limit GBPUSD" ≠ some "Buy" :=
  (classifyLine0_priority.1 "Buy Limit GBPUSD").1 (by decide)

/-! ## C8 -/

/-- C8: when the pending-intent slot is empty and the incoming text fails
to parse, both handlers reply with the formatted usage error, return
their own conversation-state constant (so the session stays in the same
awaiting-signal state), and leave the slot empty; the parse failure is
caught, never escaping the handler. -/
theorem parse_failure_reprompts :
    ∀ (gw : Gateway) (rf : ℚ) (text : String), ParseSignal rf text = none →
      CalculateTrade gw rf none text = ⟨none, CALCULATE, none, true⟩ ∧
      PlaceTrade gw rf none text = ⟨none, TRADE, none, true⟩ := by
  intro gw rf text h
  exact ⟨by simp [CalculateTrade, h], by simp [PlaceTrade, h]⟩

/-- Witness for C8: a signal missing its stop-loss line. -/
theorem parse_failure_reprompts_witness :
    ParseSignal (1/50) "BUY GBPUSD\nEntry NOW" = none ∧
    CalculateTrade gwOk (1/50) none "BUY GBPUSD\nEntry NOW" = ⟨none, CALCULATE, none, true⟩ ∧
    PlaceTrade gwOk (1/50) none "BUY GBPUSD\nEntry NOW" = ⟨none, TRADE, none, true⟩ :=
  have h : ParseSignal (1/50) "BUY GBPUSD\nEntry NOW" = none := by decide
  ⟨h, (parse_failure_reprompts gwOk (1/50) _ h).1,
      (parse_failure_reprompts gwOk (1/50) _ h).2⟩

/-! ## C9 -/

/-- C9: for a fixed (non-negative) balance and risk fraction, the computed
position size is monotonically non-increasing as the stop-loss pip count
increases. -/
theorem positionSize_antitone :
    ∀ (balance rf : ℚ) (p1 p2 : ℕ), 0 ≤ balance → 0 ≤ rf → 0 < p1 → p1 ≤ p2 →
      positionSizeOf balance rf p2 ≤ positionSizeOf balance rf p1 := by
  intro balance rf p1 p2 hb hr hp1 hle
  unfold positionSizeOf
  have h1 : (0:ℚ) < (p1:ℚ) := by exact_mod_cast hp1
  have h2 : (p1:ℚ) ≤ (p2:ℚ) := by exact_mod_cast hle
  have ha : (0:ℚ) ≤ balance * rf := mul_nonneg hb hr
  have hmono : balance * rf / (p2:ℚ) / 10 * 100 ≤ balance * rf / (p1:ℚ) / 10 * 100 := by
    gcongr
  have hfl : ⌊balance * rf / (p2:ℚ) / 10 * 100⌋ ≤ ⌊balance * rf / (p1:ℚ) / 10 * 100⌋ :=
    Int.floor_le_floor hmono
  have : ((⌊balance * rf / (p2:ℚ) / 10 * 100⌋ : ℤ) : ℚ) ≤
      ((⌊balance * rf / (p1:ℚ) / 10 * 100⌋ : ℤ) : ℚ) := by exact_mod_cast hfl
  gcongr

/-- Witness for C9. -/
theorem positionSize_antitone_witness :
    positionSizeOf 10000 (1/50) 7 ≤ positionSizeOf 10000 (1/50) 3 :=
  positionSize_antitone 10000 (1/50) 3 7 (by norm_num) (by norm_num)
    (by norm_num) (by norm_num)

/-! ## C2 -/


/-- C2: whenever the risk computation succeeds (numeric entry, non-zero
pip distance), the computed position size equals the spec's formula, and
it never exceeds the unrounded risk quotient (floored, never rounded
up). -/
theorem positionSize_formula :
    ∀ (t : Trade) (balance : ℚ) (rep : RiskReport),
      GetTradeInformation t balance = .ok rep →
      rep.positionSize = specPositionSize balance t.RiskFactor rep.stopLossPips ∧
      rep.positionSize ≤ balance * t.RiskFactor / (rep.stopLossPips : ℚ) / 10 := by
  intro t balance rep h
  unfold GetTradeInformation at h
  cases hm : multiplierOf t with
  | error e => simp only [hm] at h; exact Except.noConfusion h
  | ok m =>
    simp only [hm] at h
    cases he : t.Entry with
    | str s => simp only [he] at h; exact Except.noConfusion h
    | num e =>
      simp only [he] at h
      split at h
      · exact absurd h (by simp)
      · rename_i hP
        rw [Except.ok.injEq] at h
        subst h
        refine ⟨rfl, ?_⟩
        unfold positionSizeOf
        rw [div_le_iff₀ (by norm_num : (0:ℚ) < 100)]
        exact_mod_cast Int.floor_le
          (balance * t.RiskFactor / (((pyRound ((t.StopLoss - e) / m)).natAbs : ℕ) : ℚ) / 10 * 100)

/-- Witness for C2 on a concrete gold trade. -/
theorem positionSize_formula_witness :
    GetTradeInformation tGold 10000 = .ok ⟨10, 2, [10], 1/10⟩ ∧
    (2:ℚ) = specPositionSize 10000 tGold.RiskFactor 10 ∧
    (2:ℚ) ≤ 10000 * tGold.RiskFactor / (10:ℚ) / 10 :=
  have h : GetTradeInformation tGold 10000 = .ok ⟨10, 2, [10], 1/10⟩ := by
    norm_num [GetTradeInformation, multiplierOf, pyRound, positionSizeOf, tGold]
  ⟨h, (positionSize_formula tGold 10000 _ h).1, (positionSize_formula tGold 10000 _ h).2⟩

/-! ## C3 -/

/-- C3: the pip multiplier is resolved in priority order (XAUUSD ⇒ 0.1,
XAGUSD ⇒ 0.001, decimal point of the entry's string form at index ≥ 2 ⇒
0.01, otherwise 0.0001), the stop-loss pip count is the absolute value of
`round((stopLoss − entry) / multiplier)` (likewise per take-profit leg),
and `pyRound` does round to a nearest integer. -/
theorem pip_multiplier_resolution :
    (∀ (t : Trade) (q : ℚ), t.Entry = .num q →
      (t.Symbol = "XAUUSD" → multiplierOf t = .ok (1/10)) ∧
      (t.Symbol ≠ "XAUUSD" → t.Symbol = "XAGUSD" → multiplierOf t = .ok (1/1000)) ∧
      (t.Symbol ≠ "XAUUSD" → t.Symbol ≠ "XAGUSD" → dotIndexGe2 q = true →
          multiplierOf t = .ok (1/100)) ∧
      (t.Symbol ≠ "XAUUSD" → t.Symbol ≠ "XAGUSD" → dotIndexGe2 q = false →
          multiplierOf t = .ok (1/10000))) ∧
    (∀ (t : Trade) (q m balance : ℚ) (rep : RiskReport),
      t.Entry = .num q → multiplierOf t = .ok m →
      GetTradeInformation t balance = .ok rep →
      (rep.stopLossPips : ℤ) = |pyRound ((t.StopLoss - q) / m)| ∧
      rep.takeProfitPips = t.TP.map (fun tp => (pyRound ((tp - q) / m)).natAbs)) ∧
    (∀ x : ℚ, |((pyRound x : ℤ) : ℚ) - x| ≤ 1/2) := by
  refine ⟨?_, ?_, ?_⟩
  · intro t q hq
    refine ⟨?_, ?_, ?_, ?_⟩
    · intro h1; simp [multiplierOf, h1]
    · intro h1 h2; simp [multiplierOf, h1, h2]
    · intro h1 h2 h3; simp [multiplierOf, h1, h2, hq, h3]
    · intro h1 h2 h3; simp [multiplierOf, h1, h2, hq, h3]
  · intro t q m balance rep hq hm h
    unfold GetTradeInformation at h
    simp only [hm, hq] at h
    split at h
    · exact absurd h (by simp)
    · rw [Except.ok.injEq] at h
      subst h
      exact ⟨(Int.abs_eq_natAbs _).symm, rfl⟩
  · intro x
    have hf0 : (0:ℚ) ≤ x - ⌊x⌋ := by
      have := Int.floor_le x; linarith
    have hf1 : x - ⌊x⌋ < 1 := by
      have := Int.lt_floor_add_one x; linarith
    simp only [pyRound]
    split_ifs with h1 h2 h3 <;> push_cast <;> rw [abs_le] <;> constructor <;> linarith

/-- Witness for C3 on the concrete gold trade. -/
theorem pip_multiplier_resolution_witness :
    multiplierOf tGold = .ok (1/10) ∧
    ((10:ℕ):ℤ) = |pyRound ((tGold.StopLoss - 2) / (1/10))| ∧
    [10] = tGold.TP.map (fun tp => (pyRound ((tp - 2) / (1/10))).natAbs) :=
  have hm : multiplierOf tGold = .ok (1/10) :=
    (pip_multiplier_resolution.1 tGold 2 rfl).1 rfl
  have hrep : GetTradeInformation tGold 10000 = .ok ⟨10, 2, [10], 1/10⟩ := by
    norm_num [GetTradeInformation, multiplierOf, pyRound, positionSizeOf, tGold]
  ⟨hm, (pip_multiplier_resolution.2.1 tGold 2 (1/10) 10000 ⟨10, 2, [10], 1/10⟩ rfl hm hrep).1,
       (pip_multiplier_resolution.2.1 tGold 2 (1/10) 10000 ⟨10, 2, [10], 1/10⟩ rfl hm hrep).2⟩

/-! ## C1 -/

/-- C1 (code bug): a syntactically valid pending-order signal whose entry
equals its stop-loss parses successfully, and the risk computation then
reaches the position-size division with `stopLossPips = 0` and raises
ZeroDivisionError (src/run.py line 109) — the trade is not classified as
invalid before the division; only the generic connection `except` of
line 219 catches the error. -/
theorem zero_pip_distance_divides :
    ParseSignal (1/50) "Buy Limit GBPUSD\nEntry 2\nSL 2\nTP 3"
      = some ⟨"Buy Limit", "GBPUSD", .num ((2:ℕ):ℚ), ((2:ℕ):ℚ), [((3:ℕ):ℚ)], 1/50, none⟩ ∧
    GetTradeInformation ⟨"Buy Limit", "GBPUSD", .num ((2:ℕ):ℚ), ((2:ℕ):ℚ), [((3:ℕ):ℚ)], 1/50, none⟩ 10000
      = .error .zeroDivisionError := by
  constructor
  · rfl
  · norm_num [GetTradeInformation, multiplierOf, dotIndexGe2, pyRound]
    rw [if_neg (by decide : ¬("GBPUSD" = "XAUUSD")),
        if_neg (by decide : ¬("GBPUSD" = "XAGUSD"))]

/-! ## Structure of accepted parses (helper for C7 and C10) -/

/-- An accepted parse read its entry from the last token of line 1:
verbatim as a string for market order types, through `float()` for the
pending order types. -/
theorem ParseSignal_entry (rf : ℚ) (text : String) (t : Trade)
    (h : ParseSignal rf text = some t) :
    ∃ etok, entryTokenOf text = some etok ∧
      ((t.OrderType = "Buy" ∨ t.OrderType = "Sell") → t.Entry = .str etok) ∧
      (¬(t.OrderType = "Buy" ∨ t.OrderType = "Sell") →
        ∃ q, pyFloat etok = some q ∧ t.Entry = .num q) := by
  unfold ParseSignal at h
  simp only [Option.bind_eq_some] at h
  obtain ⟨l0, h0, ot, hot, symTok, hsym, h⟩ := h
  split at h
  · simp only [Option.bind_eq_some] at h
    obtain ⟨l1, h1, etok, hetok, entry, hentry, l2, h2, sl, hsl, l3, h3, tp1, htp1, h⟩ := h
    have hte : t.OrderType = ot ∧ t.Entry = entry := by
      split at h
      · rw [Option.some.injEq] at h; subst h; exact ⟨rfl, rfl⟩
      · rw [Option.map_eq_some'] at h
        obtain ⟨tp2, htp2, h⟩ := h
        subst h; exact ⟨rfl, rfl⟩
    obtain ⟨hOT, hE⟩ := hte
    refine ⟨etok, ?_, ?_, ?_⟩
    · unfold entryTokenOf
      rw [h1, Option.some_bind]
      exact hetok
    · intro hBS
      rw [hOT] at hBS
      rw [if_pos hBS, Option.some.injEq] at hentry
      rw [hE, ← hentry]
    · intro hn
      rw [hOT] at hn
      rw [if_neg hn, Option.map_eq_some'] at hentry
      obtain ⟨q, hq, hqe⟩ := hentry
      exact ⟨q, hq, by rw [hE, ← hqe]⟩
  · exact Option.noConfusion h


/-! ## C10 -/

/-- C10: for a market order the parser stores the entry token verbatim as
a string; when that string is anything but the exact literal `'NOW'`, the
live-price substitution is skipped (zero price fetches, entry left as the
string), and the risk computation fails with a TypeError or ValueError —
no risk report is produced and no orders are placed. -/
theorem market_entry_string_fails :
    (∀ (rf : ℚ) (text : String) (t : Trade) (s : String),
      ParseSignal rf text = some t → (t.OrderType = "Buy" ∨ t.OrderType = "Sell") →
      entryTokenOf text = some s → t.Entry = .str s) ∧
    (∀ (gw : Gateway) (t : Trade) (enter : Bool) (s : String),
      t.Entry = .str s → s ≠ "NOW" →
      (ConnectMetaTrader gw t enter).priceFetches = 0 ∧
      (ConnectMetaTrader gw t enter).trade.Entry = .str s ∧
      ((ConnectMetaTrader gw t enter).report = .error .typeError ∨
        (ConnectMetaTrader gw t enter).report = .error .valueError) ∧
      (ConnectMetaTrader gw t enter).ordersPlaced = []) := by
  constructor
  · intro rf text t s hp hBS hs
    obtain ⟨etok, het, hstr, -⟩ := ParseSignal_entry rf text t hp
    rw [het, Option.some.injEq] at hs
    rw [← hs]
    exact hstr hBS
  · intro gw t enter s hs hnow
    have hsub : substituteEntry gw t = (t, 0) := by
      unfold substituteEntry
      rw [hs, if_neg (by simp [hnow])]
    have hsub1 : (substituteEntry gw t).1 = t := by rw [hsub]
    have hsub2 : (substituteEntry gw t).2 = 0 := by rw [hsub]
    have hrep : GetTradeInformation t gw.balance = .error .typeError ∨
        GetTradeInformation t gw.balance = .error .valueError := by
      by_cases h1 : t.Symbol = "XAUUSD"
      · left; simp only [GetTradeInformation, multiplierOf, h1, if_true, hs]
      · by_cases h2 : t.Symbol = "XAGUSD"
        · left
          simp only [GetTradeInformation, multiplierOf, h1, h2, if_false, if_true, hs]
          rw [if_neg (by decide : ¬("XAGUSD" = "XAUUSD"))]
        · cases hidx : s.data.findIdx? (fun x => decide (x = '.')) with
          | none =>
              right
              simp only [GetTradeInformation, multiplierOf, h1, h2, if_false, hs, hidx]
          | some i =>
              left
              simp only [GetTradeInformation, multiplierOf, h1, h2, if_false, hs, hidx]
    refine ⟨?_, ?_, ?_, ?_⟩
    · simp only [ConnectMetaTrader]
      rw [hsub2]
    · simp only [ConnectMetaTrader]
      rw [hsub1]
      exact hs
    · rcases hrep with h | h
      · left; simp only [ConnectMetaTrader]; rw [hsub1]; exact h
      · right; simp only [ConnectMetaTrader]; rw [hsub1]; exact h
    · rcases hrep with h | h <;>
        (simp only [ConnectMetaTrader]; rw [hsub1, h])

/-- Witness for C10: `Entry now` on a Buy signal. -/
theorem market_entry_string_fails_witness :
    tNow.Entry = .str "now" ∧
    (ConnectMetaTrader gwOk tNow true).priceFetches = 0 ∧
    ((ConnectMetaTrader gwOk tNow true).report = .error .typeError ∨
      (ConnectMetaTrader gwOk tNow true).report = .error .valueError) ∧
    (ConnectMetaTrader gwOk tNow true).ordersPlaced = [] :=
  have hA : tNow.Entry = .str "now" :=
    market_entry_string_fails.1 (1/50) "BUY GBPUSD\nEntry now\nSL 1\nTP 3" tNow "now" rfl
      (Or.inl rfl) rfl
  have hB := market_entry_string_fails.2 gwOk tNow true "now" rfl (by decide)
  ⟨hA, hB.1, hB.2.2.1, hB.2.2.2⟩

/-! ## C7 -/

/-- C7 (counterexample to the claim as stated): a pending-order signal
whose entry token `-2` is a decimal but not positive is accepted by
`ParseSignal`, with the negative value stored as the entry. -/
theorem negative_entry_accepted :
    ParseSignal (1/50) "Buy Limit GBPUSD\nEntry -2\nSL 1\nTP 3"
      = some ⟨"Buy Limit", "GBPUSD", .num (-((2:ℕ):ℚ)), ((1:ℕ):ℚ), [((3:ℕ):ℚ)], 1/50, none⟩ ∧
    (-((2:ℕ):ℚ)) < 0 :=
  ⟨rfl, by norm_num⟩

/-- C7 (amended): for pending order types the entry token must parse as a
decimal via `float()` — positivity is not checked, so negative entries
are accepted — and a non-numeric entry token yields rejection. -/
theorem pending_entry_token_parses :
    (∀ (rf : ℚ) (text : String) (t : Trade),
      ParseSignal rf text = some t →
      t.OrderType ≠ "Buy" → t.OrderType ≠ "Sell" →
      ∃ s q, entryTokenOf text = some s ∧ pyFloat s = some q ∧ t.Entry = .num q) ∧
    (∀ (rf : ℚ) (text : String) (t : Trade) (s : String),
      ParseSignal rf text = some t →
      entryTokenOf text = some s → pyFloat s = none →
      t.OrderType = "Buy" ∨ t.OrderType = "Sell") := by
  constructor
  · intro rf text t hp hB hS
    obtain ⟨etok, het, -, hnum⟩ := ParseSignal_entry rf text t hp
    obtain ⟨q, hq, he⟩ := hnum (not_or.mpr ⟨hB, hS⟩)
    exact ⟨etok, q, het, hq, he⟩
  · intro rf text t s hp het hnone
    by_contra hc
    push_neg at hc
    obtain ⟨etok, het', -, hnum⟩ := ParseSignal_entry rf text t hp
    obtain ⟨q, hq, -⟩ := hnum (not_or.mpr hc)
    rw [het', Option.some.injEq] at het
    rw [← het] at hnone
    rw [hnone] at hq
    exact Option.noConfusion hq

/-- Witness for C7 (amended) on a concrete limit signal. -/
theorem pending_entry_token_parses_witness :
    ∃ s q, entryTokenOf "Buy Limit GBPUSD\nEntry 2\nSL 1\nTP 3" = some s ∧
      pyFloat s = some q ∧ tLimit.Entry = .num q :=
  pending_entry_token_parses.1 (1/50) "Buy Limit GBPUSD\nEntry 2\nSL 1\nTP 3" tLimit rfl
    (by decide) (by decide)

/-! ## C5 -/

/-- Characterisation of the leg-placement loop: the attempted orders are
the images of an initial segment of the take-profit list, and the whole
list is attempted exactly when no call failed. -/
theorem placeLegs_spec (place : ℕ → Except String Unit) (mk : ℚ → TradeOrder) :
    ∀ (tps : List ℚ) (i : ℕ),
      ∃ k, k ≤ tps.length ∧
        (placeLegs place mk tps i).1 = (tps.take k).map mk ∧
        ((placeLegs place mk tps i).2 = none → k = tps.length) := by
  intro tps
  induction tps with
  | nil => intro i; exact ⟨0, by simp [placeLegs]⟩
  | cons tp rest ih =>
    intro i
    cases hp : place i with
    | error e =>
        refine ⟨1, by simp, ?_, ?_⟩
        · simp [placeLegs, hp]
        · intro hn; simp [placeLegs, hp] at hn
    | ok u =>
        obtain ⟨k, hk, h1, h2⟩ := ih (i + 1)
        refine ⟨k + 1, by simpa using hk, ?_, ?_⟩
        · simp [placeLegs, hp, h1]
        · intro hn
          simp only [placeLegs, hp] at hn
          rw [h2 hn]
          simp


/-- C5 (counterexample to the claim as stated): with two take-profit legs
and a gateway error on the first leg's order, only one order call is
attempted — the single `try`/`except` around the whole loop
(src/run.py lines 191-217) aborts the sibling leg instead of attempting
it. -/
theorem first_leg_failure_aborts_second :
    tGold2.TP.length = 2 ∧
    (ConnectMetaTrader gwFail tGold2 true).placeError = some "rejected" ∧
    (ConnectMetaTrader gwFail tGold2 true).ordersPlaced.length = 1 := by
  have hsub1 : (substituteEntry gwFail tGold2).1 = tGold2 := by
    unfold substituteEntry
    rw [if_neg (by decide)]
  have hg : GetTradeInformation tGold2 gwFail.balance = .ok ⟨10, 2, [10, 20], 1/10⟩ := by
    norm_num [GetTradeInformation, multiplierOf, pyRound, positionSizeOf, tGold2, gwFail]
  refine ⟨by decide, ?_, ?_⟩
  · simp only [ConnectMetaTrader]
    rw [hsub1, hg]
    decide
  · simp only [ConnectMetaTrader]
    rw [hsub1, hg]
    decide

/-- C5 (amended): during order placement one order of size
`positionSize / numberOfLegs` is attempted per take-profit leg, in list
order; when no call fails every leg is attempted; a failing call is
caught by the single handler around the whole loop, so the attempted
orders are exactly an initial segment of the legs — placed legs before
the failure stand (no rollback), legs after it are never attempted. -/
theorem order_placement_legs (gw : Gateway) (t : Trade) (rep : RiskReport)
    (hrep : (ConnectMetaTrader gw t true).report = .ok rep)
    (hot : t.OrderType ∈ orderTypes) :
    (∀ o ∈ (ConnectMetaTrader gw t true).ordersPlaced,
        o.size = rep.positionSize / (t.TP.length : ℚ)) ∧
    ∃ k, k ≤ t.TP.length ∧
      (ConnectMetaTrader gw t true).ordersPlaced
        = (t.TP.take k).map (mkLegOrder ((ConnectMetaTrader gw t true).trade)) ∧
      ((ConnectMetaTrader gw t true).placeError = none → k = t.TP.length) := by
  have hpres : (substituteEntry gw t).1.OrderType = t.OrderType ∧
      (substituteEntry gw t).1.TP = t.TP ∧
      (substituteEntry gw t).1.PositionSize = t.PositionSize := by
    unfold substituteEntry
    split_ifs <;> exact ⟨rfl, rfl, rfl⟩
  have hg : GetTradeInformation (substituteEntry gw t).1 gw.balance = .ok rep := hrep
  have htrade : (ConnectMetaTrader gw t true).trade
      = { (substituteEntry gw t).1 with PositionSize := some rep.positionSize } := by
    simp only [ConnectMetaTrader]
    rw [hg]
  have hops : (ConnectMetaTrader gw t true).ordersPlaced
      = (placeOrders gw { (substituteEntry gw t).1 with PositionSize := some rep.positionSize }).1 := by
    simp only [ConnectMetaTrader]
    rw [hg]
    rfl
  have herr : (ConnectMetaTrader gw t true).placeError
      = (placeOrders gw { (substituteEntry gw t).1 with PositionSize := some rep.positionSize }).2 := by
    simp only [ConnectMetaTrader]
    rw [hg]
    rfl
  have hpo : placeOrders gw { (substituteEntry gw t).1 with PositionSize := some rep.positionSize }
      = placeLegs gw.place
          (mkLegOrder { (substituteEntry gw t).1 with PositionSize := some rep.positionSize })
          t.TP 0 := by
    unfold placeOrders
    rw [if_pos ?_]
    · rw [show ({ (substituteEntry gw t).1 with PositionSize := some rep.positionSize } : Trade).TP
          = t.TP from hpres.2.1]
    · exact hpres.1 ▸ hot
  obtain ⟨k, hk, h1, h2⟩ := placeLegs_spec gw.place
    (mkLegOrder { (substituteEntry gw t).1 with PositionSize := some rep.positionSize }) t.TP 0
  constructor
  · intro o ho
    rw [hops, hpo, h1] at ho
    obtain ⟨tp, htp, rfl⟩ := List.mem_map.1 ho
    show ({ (substituteEntry gw t).1 with PositionSize := some rep.positionSize } : Trade).PositionSize.getD 0
        / (({ (substituteEntry gw t).1 with PositionSize := some rep.positionSize } : Trade).TP.length : ℚ)
      = rep.positionSize / (t.TP.length : ℚ)
    rw [hpres.2.1]
    rfl
  · exact ⟨k, hk, by rw [hops, hpo, h1, htrade], fun hn => h2 (by rw [herr, hpo] at hn; exact hn)⟩

/-- Witness for C5 (amended): both legs attempted with half size each on a
gateway that accepts every order. -/
theorem order_placement_legs_witness :
    (∀ o ∈ (ConnectMetaTrader gwOk tGold2 true).ordersPlaced,
        o.size = (2:ℚ) / (tGold2.TP.length : ℚ)) ∧
    ∃ k, k ≤ tGold2.TP.length ∧
      (ConnectMetaTrader gwOk tGold2 true).ordersPlaced
        = (tGold2.TP.take k).map (mkLegOrder ((ConnectMetaTrader gwOk tGold2 true).trade)) ∧
      ((ConnectMetaTrader gwOk tGold2 true).placeError = none → k = tGold2.TP.length) :=
  have hsub1 : (substituteEntry gwOk tGold2).1 = tGold2 := by
    unfold substituteEntry
    rw [if_neg (by decide)]
  have hg : GetTradeInformation tGold2 gwOk.balance = .ok ⟨10, 2, [10, 20], 1/10⟩ := by
    norm_num [GetTradeInformation, multiplierOf, pyRound, positionSizeOf, tGold2, gwOk]
  have hrep : (ConnectMetaTrader gwOk tGold2 true).report = .ok ⟨10, 2, [10, 20], 1/10⟩ := by
    simp only [ConnectMetaTrader]
    rw [hsub1]
    exact hg
  order_placement_legs gwOk tGold2 ⟨10, 2, [10, 20], 1/10⟩ hrep (by decide)

/-! ## C6 -/


/-- C6 (counterexample to the claim as stated): calculating a market
signal while the bid is 2 stores the intent with entry overwritten to 2;
when "yes" re-runs placement while the live bid is 9, the rerun makes
zero price fetches and still uses entry 2 — the live price is not
re-fetched. -/
theorem yes_does_not_refetch_price :
    gwB.bid "XAUUSD" = 9 ∧
    ((CalculateTrade gwA (1/50) none "BUY XAUUSD\nEntry NOW\nSL 1\nTP 3").slot.map Trade.Entry)
      = some (.num 2) ∧
    ((PlaceTrade gwB (1/50)
        (CalculateTrade gwA (1/50) none "BUY XAUUSD\nEntry NOW\nSL 1\nTP 3").slot
        "yes").connect.map ConnectResult.priceFetches) = some 0 ∧
    ((PlaceTrade gwB (1/50)
        (CalculateTrade gwA (1/50) none "BUY XAUUSD\nEntry NOW\nSL 1\nTP 3").slot
        "yes").connect.map (fun c => c.trade.Entry)) = some (.num 2) :=
  ⟨rfl, rfl, rfl, rfl⟩

/-- C6 (amended): a "yes" in the decision state re-runs order placement on
the pending intent stored at calculation time without re-parsing, and
recomputes against the gateway's current balance; but the live price is
not re-fetched for a market intent, because its entry was overwritten in
place with the quote fetched during the calculation run; the session then
ends with the slot cleared. -/
theorem yes_rerun_behavior :
    ∀ (g1 g2 : Gateway) (rf : ℚ) (text text2 : String) (t : Trade),
      ParseSignal rf text = some t → t.OrderType = "Buy" → t.Entry = .str "NOW" →
      ((CalculateTrade g1 rf none text).slot.map Trade.Entry
          = some (.num (g1.bid t.Symbol))) ∧
      (CalculateTrade g1 rf none text).state = DECISION ∧
      ∀ u, (CalculateTrade g1 rf none text).slot = some u →
        (PlaceTrade g2 rf (some u) text2).connect
            = some (ConnectMetaTrader g2 u true) ∧
        (ConnectMetaTrader g2 u true).report = GetTradeInformation u g2.balance ∧
        (ConnectMetaTrader g2 u true).priceFetches = 0 ∧
        (PlaceTrade g2 rf (some u) text2).slot = none ∧
        (PlaceTrade g2 rf (some u) text2).state = END_STATE := by
  intro g1 g2 rf text text2 t hp hBuy hNOW
  have hcalc : CalculateTrade g1 rf none text =
      { slot := some (ConnectMetaTrader g1 t false).trade, state := DECISION,
        connect := some (ConnectMetaTrader g1 t false), usageError := false } := by
    simp [CalculateTrade, hp]
  have hsubst : substituteEntry g1 t = ({ t with Entry := .num (g1.bid t.Symbol) }, 1) := by
    unfold substituteEntry
    rw [hNOW, if_pos rfl, if_pos hBuy]
  have hEntry : (ConnectMetaTrader g1 t false).trade.Entry = .num (g1.bid t.Symbol) := by
    simp only [ConnectMetaTrader]
    rw [hsubst]
  refine ⟨?_, ?_, ?_⟩
  · rw [hcalc]
    simp [hEntry]
  · rw [hcalc]
  · intro u hu
    rw [hcalc] at hu
    simp only [Option.some.injEq] at hu
    have huE : u.Entry = .num (g1.bid t.Symbol) := by rw [← hu]; exact hEntry
    have hsub2 : substituteEntry g2 u = (u, 0) := by
      unfold substituteEntry
      rw [huE, if_neg (by simp)]
    refine ⟨?_, ?_, ?_, ?_, ?_⟩
    · simp [PlaceTrade]
    · simp only [ConnectMetaTrader]
      rw [hsub2]
    · simp only [ConnectMetaTrader]
      rw [hsub2]
    · simp [PlaceTrade]
    · simp [PlaceTrade]

/-- Witness for C6 (amended) on the concrete market signal. -/
theorem yes_rerun_behavior_witness :
    ((CalculateTrade gwA (1/50) none "BUY XAUUSD\nEntry NOW\nSL 1\nTP 3").slot.map Trade.Entry
        = some (.num (gwA.bid tMkt.Symbol))) ∧
    (CalculateTrade gwA (1/50) none "BUY XAUUSD\nEntry NOW\nSL 1\nTP 3").state = DECISION ∧
    (ConnectMetaTrader gwB ((ConnectMetaTrader gwA tMkt false).trade) true).priceFetches = 0 ∧
    (PlaceTrade gwB (1/50) (some ((ConnectMetaTrader gwA tMkt false).trade)) "yes").state
      = END_STATE :=
  have h := yes_rerun_behavior gwA gwB (1/50) "BUY XAUUSD\nEntry NOW\nSL 1\nTP 3" "yes" tMkt
    rfl rfl rfl
  have h2 := h.2.2 ((ConnectMetaTrader gwA tMkt false).trade) rfl
  ⟨h.1, h.2.1, h2.2.2.1, h2.2.2.2.2⟩
